import Mathlib

/-!
Shallow embedding of `src/snapchat_memories_gui.py` (Snapchat-Memories-Downloader).

The GUI is a form-to-process bridge: a form state (mode combo, path line edits,
eleven checkboxes, a thread spin box) is mapped by `_build_args` to a command
argument list; checkbox `toggled` handlers enforce mutual exclusions; process
output lines are scanned with the regex `\[(\d+)/(\d+)\]` for progress updates;
`_start_process` checks preconditions before spawning; `_stop_process` terminates
and, after a 2000 ms grace period, kills.

Modelling conventions:
  * Python `str.strip()` / per-character `str.isspace()` are modelled over the
    ASCII whitespace characters (space, tab, LF, CR, VT, FF); the claims only
    involve such characters.
  * Qt checkbox handlers: `setChecked(False)` on a conflicting box fires that
    box's own `toggled(False)` handler, whose body is a no-op when `checked`
    is false, so each user toggle is faithfully a single pure state update.
  * Filesystem facts (`Path.exists`, `Path.is_dir`) and the live-process check
    are inputs (an `Env` record and an `Option ProcState`), since the GUI only
    reads them.
-/

namespace SnapGui

/-- ASCII whitespace, as recognised by Python `str.isspace()` on the ASCII
range: space, tab, newline, carriage return, vertical tab, form feed. -/
def pyIsSpace (c : Char) : Bool :=
  c = ' ' || c = '\t' || c = '\n' || c = '\r' || c = Char.ofNat 11 || c = Char.ofNat 12

/-- Python `str.strip()`: drop leading and trailing whitespace. -/
def pyStrip (s : String) : String :=
  ⟨((s.data.dropWhile pyIsSpace).reverse.dropWhile pyIsSpace).reverse⟩

/-- The form state of `DownloaderGUI`: the mode combo index (0 = download from
memories_history.html, 1 = merge existing main and overlay files), the three path
line edits, the eleven checkboxes, the enabled-state of the defer-video-overlays
control, and the thread spin box value. -/
structure FormState where
  modeIndex : Nat
  htmlPath : String
  outputPath : String
  mergeFolder : String
  resume : Bool
  retryFailed : Bool
  test : Bool
  mergeOverlays : Bool
  deferVideoOverlays : Bool
  deferEnabled : Bool
  videosOnly : Bool
  picturesOnly : Bool
  overlaysOnly : Bool
  timestampFilenames : Bool
  removeDuplicates : Bool
  joinMultiSnaps : Bool
  threads : Nat
  deriving Repr, DecidableEq

/-- Embedding of `_build_args` (lines 381-422): in merge mode (combo index 1)
the list is `["--merge-existing", folder]` when the stripped folder text is
non-empty, else empty; otherwise the download-mode fields are appended in the
source's fixed order, with `--threads N` only when the spin value exceeds 1.
Python truthiness `if text:` on a stripped string is the non-emptiness test. -/
def buildArgs (s : FormState) : List String :=
  if s.modeIndex = 1 then
    (if pyStrip s.mergeFolder = "" then [] else ["--merge-existing", pyStrip s.mergeFolder])
  else
    (if pyStrip s.htmlPath = "" then [] else [pyStrip s.htmlPath]) ++
    (if pyStrip s.outputPath = "" then [] else ["-o", pyStrip s.outputPath]) ++
    (if s.resume then ["--resume"] else []) ++
    (if s.retryFailed then ["--retry-failed"] else []) ++
    (if s.test then ["--test"] else []) ++
    (if s.mergeOverlays then ["--merge-overlays"] else []) ++
    (if s.deferVideoOverlays then ["--defer-video-overlays"] else []) ++
    (if s.videosOnly then ["--videos-only"] else []) ++
    (if s.picturesOnly then ["--pictures-only"] else []) ++
    (if s.overlaysOnly then ["--overlays-only"] else []) ++
    (if s.timestampFilenames then ["--timestamp-filenames"] else []) ++
    (if s.removeDuplicates then ["--remove-duplicates"] else []) ++
    (if s.joinMultiSnaps then ["--join-multi-snaps"] else []) ++
    (if 1 < s.threads then ["--threads", toString s.threads] else [])

/-- Embedding of `_display_arg` (lines 29-34): the empty string renders as a
pair of double quotes; a string containing whitespace or a quote character is
wrapped in double quotes without escaping; anything else is unchanged. -/
def displayArg (value : String) : String :=
  if value = "" then "\"\""
  else if value.data.any (fun c => pyIsSpace c) ||
          value.data.any (fun c => c = '"' || c = Char.ofNat 39) then
    "\"" ++ value ++ "\""
  else value

/-- Embedding of `_update_command_preview` (lines 424-428): the preview text is
the space-joined rendering of interpreter, "-u", script path and built args. -/
def commandPreview (pythonExe scriptPath : String) (s : FormState) : String :=
  String.intercalate " " (([pythonExe, "-u", scriptPath] ++ buildArgs s).map displayArg)

/-- Numeric value of a digit string, as Python `int()` on a `\d+` match. -/
def natOfDigits (ds : List Char) : Nat :=
  ds.foldl (fun n c => 10 * n + (c.toNat - 48)) 0

/-- Attempt to match `(\d+)/(\d+)\]` directly after an opening bracket: a
maximal non-empty digit run, a slash, a maximal non-empty digit run, a closing
bracket. Digits and the separators are disjoint character classes, so the
greedy runs are exactly what the regex engine matches. -/
def tryProgressAt (cs : List Char) : Option (Nat × Nat) :=
  let ds1 := cs.takeWhile Char.isDigit
  let rest1 := cs.dropWhile Char.isDigit
  if ds1.isEmpty then none
  else
    match rest1 with
    | '/' :: rest2 =>
      let ds2 := rest2.takeWhile Char.isDigit
      let rest3 := rest2.dropWhile Char.isDigit
      if ds2.isEmpty then none
      else
        match rest3 with
        | ']' :: _ => some (natOfDigits ds1, natOfDigits ds2)
        | _ => none
    | _ => none

/-- Leftmost search for the pattern `\[(\d+)/(\d+)\]` in a line, as
`self._progress_re.search(line)` does (line 44): try each position from the
left; positions not starting with an opening bracket fail immediately. -/
def findProgress : List Char → Option (Nat × Nat)
  | [] => none
  | c :: rest =>
    if c = '[' then
      match tryProgressAt rest with
      | some r => some r
      | none => findProgress rest
    else findProgress rest

/-- Progress-display state: `QProgressBar` range and value plus the status
label text. -/
structure ProgressState where
  rangeLo : Nat
  rangeHi : Nat
  value : Nat
  statusText : String
  deriving Repr, DecidableEq

/-- Embedding of `_maybe_update_progress` (lines 436-443): when the line has no
progress marker nothing changes; otherwise the bar range becomes (0, total),
the value becomes current, and the status text becomes
"Processing current of total", with no validation of the two integers. -/
def maybeUpdateProgress (line : String) (ps : ProgressState) : ProgressState :=
  match findProgress line.data with
  | none => ps
  | some (c, t) =>
    { rangeLo := 0, rangeHi := t, value := c,
      statusText := "Processing " ++ toString c ++ " of " ++ toString t }

/-- Line-break characters recognised by Python `str.splitlines()` (the ASCII
ones plus NEL and the Unicode line and paragraph separators). -/
def pyIsLineBreak (c : Char) : Bool :=
  c = '\n' || c = '\r' || c = Char.ofNat 11 || c = Char.ofNat 12 ||
  c = Char.ofNat 28 || c = Char.ofNat 29 || c = Char.ofNat 30 ||
  c = Char.ofNat 133 || c = Char.ofNat 8232 || c = Char.ofNat 8233

/-- Helper for `pySplitlines`: accumulate the current line (reversed) and cut
at each line break, treating CR LF as a single break; a trailing fragment is
emitted only when non-empty, as Python does. -/
def pySplitlinesAux : List Char → List Char → List String
  | [], acc => if acc.isEmpty then [] else [⟨acc.reverse⟩]
  | '\r' :: '\n' :: rest, acc => (⟨acc.reverse⟩ : String) :: pySplitlinesAux rest []
  | c :: rest, acc =>
    if pyIsLineBreak c then (⟨acc.reverse⟩ : String) :: pySplitlinesAux rest []
    else pySplitlinesAux rest (c :: acc)

/-- Python `str.splitlines()`. -/
def pySplitlines (s : String) : List String :=
  pySplitlinesAux s.data []

/-- Embedding of the progress part of `_handle_process_output` (lines 517-527):
each line of the decoded chunk is fed to `_maybe_update_progress` in order. -/
def handleOutput (data : String) (ps : ProgressState) : ProgressState :=
  (pySplitlines data).foldl (fun a line => maybeUpdateProgress line a) ps

/-- Form events: one per widget the user can change. Each checkbox event
carries the new checked value delivered to the `toggled` handlers. -/
inductive Ev where
  | setResume (b : Bool)
  | setRetryFailed (b : Bool)
  | setTest (b : Bool)
  | setVideosOnly (b : Bool)
  | setPicturesOnly (b : Bool)
  | setMergeOverlays (b : Bool)
  | setDeferVideoOverlays (b : Bool)
  | setOverlaysOnly (b : Bool)
  | setTimestampFilenames (b : Bool)
  | setRemoveDuplicates (b : Bool)
  | setJoinMultiSnaps (b : Bool)
  | setModeIndex (i : Nat)
  | setHtmlPath (t : String)
  | setOutputPath (t : String)
  | setMergeFolder (t : String)
  | setThreads (n : Nat)
  deriving Repr, DecidableEq

/-- Effect of one form event, embedding the `toggled` handlers (lines 353-379).
`_on_resume_toggled` with checked true unchecks retry-failed and test (their
own handlers then run with checked false and do nothing); symmetrically for
`_on_retry_toggled` and `_on_test_toggled`; `_on_videos_only_toggled` and
`_on_pictures_only_toggled` uncheck each other; `_on_merge_overlays_toggled`
sets the enabled state of the defer-video-overlays control to the new value
and, when unchecked, also unchecks it. The spin box clamps to its 1..16 range
(line 175). -/
def applyEv (e : Ev) (s : FormState) : FormState :=
  match e with
  | .setResume b =>
    { s with resume := b,
             retryFailed := if b then false else s.retryFailed,
             test := if b then false else s.test }
  | .setRetryFailed b =>
    { s with retryFailed := b,
             resume := if b then false else s.resume,
             test := if b then false else s.test }
  | .setTest b =>
    { s with test := b,
             resume := if b then false else s.resume,
             retryFailed := if b then false else s.retryFailed }
  | .setVideosOnly b =>
    { s with videosOnly := b,
             picturesOnly := if b then false else s.picturesOnly }
  | .setPicturesOnly b =>
    { s with picturesOnly := b,
             videosOnly := if b then false else s.videosOnly }
  | .setMergeOverlays b =>
    { s with mergeOverlays := b,
             deferEnabled := b,
             deferVideoOverlays := if b then s.deferVideoOverlays else false }
  | .setDeferVideoOverlays b => { s with deferVideoOverlays := b }
  | .setOverlaysOnly b => { s with overlaysOnly := b }
  | .setTimestampFilenames b => { s with timestampFilenames := b }
  | .setRemoveDuplicates b => { s with removeDuplicates := b }
  | .setJoinMultiSnaps b => { s with joinMultiSnaps := b }
  | .setModeIndex i => { s with modeIndex := i }
  | .setHtmlPath t => { s with htmlPath := t }
  | .setOutputPath t => { s with outputPath := t }
  | .setMergeFolder t => { s with mergeFolder := t }
  | .setThreads n => { s with threads := max 1 (min 16 n) }

/-- Fold a sequence of form events over a state, left to right. -/
def applyEvs (evs : List Ev) (s : FormState) : FormState :=
  evs.foldl (fun a e => applyEv e a) s

/-- The mutual-exclusion invariant of the form: resume, retry-failed and test
are pairwise exclusive, and videos-only and pictures-only are exclusive. -/
def exclInv (s : FormState) : Prop :=
  (s.resume && s.retryFailed) = false ∧
  (s.resume && s.test) = false ∧
  (s.retryFailed && s.test) = false ∧
  (s.videosOnly && s.picturesOnly) = false

instance (s : FormState) : Decidable (exclInv s) := by
  unfold exclInv
  infer_instance

/-- QProcess state, as far as the GUI inspects it (it only ever compares
against NotRunning). -/
inductive ProcState where
  | notRunning
  | starting
  | running
  deriving Repr, DecidableEq

/-- The check `self.process and self.process.state() != NotRunning` guarding
start requests (line 487). -/
def processIsRunning : Option ProcState → Bool
  | none => false
  | some st => !(st = ProcState.notRunning)

/-- Read-only environment facts consulted by `_start_process`: whether the
target script exists, its path as a string, and the filesystem predicates
`Path.exists` and `Path.is_dir`. -/
structure Env where
  scriptExists : Bool
  scriptPath : String
  pathExists : String → Bool
  isDir : String → Bool

/-- Outcome of one `_start_process` call: the title of the modal message box
when the start was blocked, whether the advisory metadata warning was appended
to the log, the argv passed to `QProcess.start` when a process was spawned,
and the process handle afterwards. -/
structure StartResult where
  modal : Option String
  warned : Bool
  spawnedArgs : Option (List String)
  procAfter : Option ProcState

/-- The effective output directory: the stripped output field, or "memories"
when it is empty (Python `text.strip() or "memories"`, line 468). -/
def outputDirOf (s : FormState) : String :=
  if pyStrip s.outputPath = "" then "memories" else pyStrip s.outputPath

/-- Embedding of `_start_process` (lines 445-505), in the source's check
order: missing script blocks with a critical box; in download mode an empty
or nonexistent HTML path blocks; in merge mode an empty or non-directory
folder blocks; the advisory metadata.json warning (download mode only) is
logged before the already-running check; a live process blocks; otherwise a
new process is spawned with `[python, "-u", script] ++ buildArgs` and the
handle becomes a fresh live process. -/
def startProcessRun (env : Env) (s : FormState) (proc : Option ProcState) : StartResult :=
  if !env.scriptExists then
    { modal := some "Missing script", warned := false, spawnedArgs := none, procAfter := proc }
  else if s.modeIndex = 0 then
    if pyStrip s.htmlPath = "" then
      { modal := some "Missing HTML", warned := false, spawnedArgs := none, procAfter := proc }
    else if !env.pathExists (pyStrip s.htmlPath) then
      { modal := some "Missing file", warned := false, spawnedArgs := none, procAfter := proc }
    else
      let warned := (s.resume || s.retryFailed) &&
        !env.pathExists (outputDirOf s ++ "/metadata.json")
      if processIsRunning proc then
        { modal := some "Already running", warned := warned, spawnedArgs := none,
          procAfter := proc }
      else
        { modal := none, warned := warned,
          spawnedArgs := some (["-u", env.scriptPath] ++ buildArgs s),
          procAfter := some ProcState.running }
  else
    if pyStrip s.mergeFolder = "" then
      { modal := some "Missing folder", warned := false, spawnedArgs := none, procAfter := proc }
    else if !env.isDir (pyStrip s.mergeFolder) then
      { modal := some "Invalid folder", warned := false, spawnedArgs := none, procAfter := proc }
    else if processIsRunning proc then
      { modal := some "Already running", warned := false, spawnedArgs := none,
        procAfter := proc }
    else
      { modal := none, warned := false,
        spawnedArgs := some (["-u", env.scriptPath] ++ buildArgs s),
        procAfter := some ProcState.running }

/-- Observable actions of `_stop_process`, in order. -/
inductive StopAction where
  | terminate
  | waitForFinished (ms : Nat)
  | kill
  | log (msg : String)
  deriving Repr, DecidableEq

/-- Embedding of `_stop_process` (lines 507-515): a stop with no process or a
not-running process does nothing; otherwise terminate is requested, the GUI
waits up to 2000 ms, and only when the process has not finished within that
grace period (the child's behaviour is the `exitsWithinGrace` input) is kill
issued, after which the stop is logged. -/
def stopProcess (proc : Option ProcState) (exitsWithinGrace : Bool) : List StopAction :=
  match proc with
  | none => []
  | some st =>
    if st = ProcState.notRunning then []
    else
      [StopAction.terminate, StopAction.waitForFinished 2000] ++
      (if exitsWithinGrace then [] else [StopAction.kill]) ++
      [StopAction.log "Process stopped by user.\n"]

/-- A form state with every checkbox cleared, empty paths, download mode and
thread count 1: the GUI's initial state modulo the default output text. -/
def baseForm : FormState :=
  { modeIndex := 0, htmlPath := "", outputPath := "", mergeFolder := "",
    resume := false, retryFailed := false, test := false, mergeOverlays := false,
    deferVideoOverlays := false, deferEnabled := false, videosOnly := false,
    picturesOnly := false, overlaysOnly := false, timestampFilenames := false,
    removeDuplicates := false, joinMultiSnaps := false, threads := 1 }

/-- Merge-mode form with a folder set (with surrounding whitespace). -/
def exMerge : FormState := { baseForm with modeIndex := 1, mergeFolder := " mfold " }

/-- Merge-mode form whose folder text strips to empty. -/
def exMergeEmpty : FormState := { baseForm with modeIndex := 1, mergeFolder := "  " }

/-- Download-mode form with an HTML path and resume checked. -/
def exDownload : FormState := { baseForm with htmlPath := "mem.html", resume := true }

/-- The progress display at startup: range (0, 1), value 0, label "Idle". -/
def idleProgress : ProgressState :=
  { rangeLo := 0, rangeHi := 1, value := 0, statusText := "Idle" }

/-- C1: in merge mode (combo index 1) the built argument list is exactly the
merge-target flag followed by the stripped folder path when that text is
non-empty, and empty when the stripped folder text is empty; no download-only
flag or field ever appears. -/
theorem build_args_merge_mode (s : FormState) (h : s.modeIndex = 1) :
    (pyStrip s.mergeFolder ≠ "" →
      buildArgs s = ["--merge-existing", pyStrip s.mergeFolder]) ∧
    (pyStrip s.mergeFolder = "" → buildArgs s = []) := by
  constructor <;> intro hm <;> simp [buildArgs, h, hm]

/-- Witness for C1: concrete merge-mode states with a set and an empty folder. -/
theorem build_args_merge_mode_witness :
    buildArgs exMerge = ["--merge-existing", pyStrip exMerge.mergeFolder] ∧
    buildArgs exMergeEmpty = [] :=
  ⟨(build_args_merge_mode exMerge rfl).1 (by decide),
   (build_args_merge_mode exMergeEmpty rfl).2 (by decide)⟩

/-- C2: in download mode the built argument list is the HTML path (when its
stripped text is non-empty), then "-o" and the output directory (when
non-empty), then the enabled boolean flags in the fixed source order resume,
retry-failed, test, merge-overlays, defer-video-overlays, videos-only,
pictures-only, overlays-only, timestamp-filenames, remove-duplicates,
join-multi-snaps, then "--threads N" exactly when the thread count N exceeds
one — so a thread count of 1 contributes nothing to the command. -/
theorem build_args_download_mode (s : FormState) (h : s.modeIndex = 0) :
    buildArgs s =
      (if pyStrip s.htmlPath = "" then [] else [pyStrip s.htmlPath]) ++
      (if pyStrip s.outputPath = "" then [] else ["-o", pyStrip s.outputPath]) ++
      (if s.resume then ["--resume"] else []) ++
      (if s.retryFailed then ["--retry-failed"] else []) ++
      (if s.test then ["--test"] else []) ++
      (if s.mergeOverlays then ["--merge-overlays"] else []) ++
      (if s.deferVideoOverlays then ["--defer-video-overlays"] else []) ++
      (if s.videosOnly then ["--videos-only"] else []) ++
      (if s.picturesOnly then ["--pictures-only"] else []) ++
      (if s.overlaysOnly then ["--overlays-only"] else []) ++
      (if s.timestampFilenames then ["--timestamp-filenames"] else []) ++
      (if s.removeDuplicates then ["--remove-duplicates"] else []) ++
      (if s.joinMultiSnaps then ["--join-multi-snaps"] else []) ++
      (if 1 < s.threads then ["--threads", toString s.threads] else []) := by
  simp [buildArgs, h]

/-- Witness for C2: the download-mode example (thread count 1) builds its
argument list as the theorem states; note the absence of any threads flag. -/
theorem build_args_download_mode_witness :
    buildArgs exDownload =
      (if pyStrip exDownload.htmlPath = "" then [] else [pyStrip exDownload.htmlPath]) ++
      (if pyStrip exDownload.outputPath = "" then []
        else ["-o", pyStrip exDownload.outputPath]) ++
      (if exDownload.resume then ["--resume"] else []) ++
      (if exDownload.retryFailed then ["--retry-failed"] else []) ++
      (if exDownload.test then ["--test"] else []) ++
      (if exDownload.mergeOverlays then ["--merge-overlays"] else []) ++
      (if exDownload.deferVideoOverlays then ["--defer-video-overlays"] else []) ++
      (if exDownload.videosOnly then ["--videos-only"] else []) ++
      (if exDownload.picturesOnly then ["--pictures-only"] else []) ++
      (if exDownload.overlaysOnly then ["--overlays-only"] else []) ++
      (if exDownload.timestampFilenames then ["--timestamp-filenames"] else []) ++
      (if exDownload.removeDuplicates then ["--remove-duplicates"] else []) ++
      (if exDownload.joinMultiSnaps then ["--join-multi-snaps"] else []) ++
      (if 1 < exDownload.threads then ["--threads", toString exDownload.threads] else []) :=
  build_args_download_mode exDownload rfl

/-- C4: unchecking merge-overlays unchecks defer-video-overlays and disables
its control; checking merge-overlays again re-enables the control but leaves
defer-video-overlays unchecked (no auto-restore of its previous value). -/
theorem merge_overlays_defer_coupling (s : FormState) :
    ((applyEv (Ev.setMergeOverlays false) s).deferVideoOverlays = false ∧
     (applyEv (Ev.setMergeOverlays false) s).deferEnabled = false) ∧
    ((applyEv (Ev.setMergeOverlays true) (applyEv (Ev.setMergeOverlays false) s)).deferEnabled
        = true ∧
     (applyEv (Ev.setMergeOverlays true)
        (applyEv (Ev.setMergeOverlays false) s)).deferVideoOverlays = false) := by
  simp [applyEv]

/-- C5: a line whose content matches `[current/total]` makes the handler set
the bar range to (0, total), the value to current, and the status text to
"Processing current of total"; a line with no such substring changes nothing;
in particular the output chunk "foo\n[3/10] bar\n" yields range (0, 10),
value 3 and status "Processing 3 of 10" (which reflects "3 of 10"). -/
theorem progress_marker_update :
    (∀ (line : String) (ps : ProgressState) (c t : Nat),
        findProgress line.data = some (c, t) →
        maybeUpdateProgress line ps =
          { rangeLo := 0, rangeHi := t, value := c,
            statusText := "Processing " ++ toString c ++ " of " ++ toString t }) ∧
    (∀ (line : String) (ps : ProgressState),
        findProgress line.data = none → maybeUpdateProgress line ps = ps) ∧
    (∀ ps : ProgressState,
        handleOutput "foo\n[3/10] bar\n" ps =
          { rangeLo := 0, rangeHi := 10, value := 3,
            statusText := "Processing 3 of 10" }) := by
  refine ⟨?_, ?_, ?_⟩
  · intro line ps c t h
    simp [maybeUpdateProgress, h]
  · intro line ps h
    simp [maybeUpdateProgress, h]
  · intro ps
    rfl

/-- Witness for C5: the matching line applied from the idle display. -/
theorem progress_marker_update_witness :
    maybeUpdateProgress "[3/10] bar" idleProgress =
      { rangeLo := 0, rangeHi := 10, value := 3,
        statusText := "Processing " ++ toString 3 ++ " of " ++ toString 10 } :=
  progress_marker_update.1 "[3/10] bar" idleProgress 3 10 rfl

/-- C10: the handler validates nothing about the matched integers: any matched
pair is written to the bar unconditionally; "[0/0]" puts the bar back into the
indeterminate range (0, 0), and a current greater than total such as "[7/3]"
is accepted as-is. -/
theorem progress_no_validation :
    (∀ (line : String) (ps : ProgressState) (c t : Nat),
        findProgress line.data = some (c, t) →
        (maybeUpdateProgress line ps).rangeLo = 0 ∧
        (maybeUpdateProgress line ps).rangeHi = t ∧
        (maybeUpdateProgress line ps).value = c) ∧
    (∀ ps : ProgressState,
        maybeUpdateProgress "[0/0]" ps =
          { rangeLo := 0, rangeHi := 0, value := 0,
            statusText := "Processing 0 of 0" }) ∧
    (∀ ps : ProgressState,
        maybeUpdateProgress "done [7/3]" ps =
          { rangeLo := 0, rangeHi := 3, value := 7,
            statusText := "Processing 7 of 3" }) := by
  refine ⟨?_, ?_, ?_⟩
  · intro line ps c t h
    simp [maybeUpdateProgress, h]
  · intro ps
    rfl
  · intro ps
    rfl

/-- Witness for C10: the zero-total line applied from the idle display. -/
theorem progress_no_validation_witness :
    (maybeUpdateProgress "[0/0]" idleProgress).rangeLo = 0 ∧
    (maybeUpdateProgress "[0/0]" idleProgress).rangeHi = 0 ∧
    (maybeUpdateProgress "[0/0]" idleProgress).value = 0 :=
  progress_no_validation.1 "[0/0]" idleProgress 0 0 rfl

/-- Splitting the special-character test of `_display_arg` into one combined
scan: checking whitespace and quote characters in two passes is the same as
one pass with the disjunction. -/
theorem any_special_split (v : String) :
    (v.data.any (fun c => pyIsSpace c) ||
      v.data.any (fun c => c = '"' || c = Char.ofNat 39)) =
    v.data.any (fun c => pyIsSpace c || (c = '"' || c = Char.ofNat 39)) := by
  induction v.data with
  | nil => rfl
  | cons c cs ih =>
    simp only [List.any_cons, ← ih]
    cases pyIsSpace c <;> cases cs.any (fun x => pyIsSpace x) <;> simp

/-- C9: the preview rendering of an argument maps the empty string to a pair
of double quotes, wraps any string containing whitespace or a quote character
in double quotes without escaping its contents (so a value with an embedded
double quote renders ambiguously, as the concrete conjunct shows), leaves
every other string unchanged, and the preview is the space-separated join of
these renderings of interpreter, "-u", script path and built arguments. -/
theorem display_arg_quoting :
    (displayArg "" = "\"\"") ∧
    (∀ v : String, v ≠ "" →
      v.data.any (fun c => pyIsSpace c || (c = '"' || c = Char.ofNat 39)) = true →
      displayArg v = "\"" ++ v ++ "\"") ∧
    (∀ v : String, v ≠ "" →
      v.data.any (fun c => pyIsSpace c || (c = '"' || c = Char.ofNat 39)) = false →
      displayArg v = v) ∧
    (displayArg "a\"b" = "\"a\"b\"") ∧
    (∀ (exe sp : String) (s : FormState),
      commandPreview exe sp s =
        String.intercalate " " (List.map displayArg ([exe, "-u", sp] ++ buildArgs s))) := by
  refine ⟨rfl, ?_, ?_, rfl, fun exe sp s => rfl⟩
  · intro v hne hany
    rw [← any_special_split] at hany
    simp [displayArg, hne, hany]
  · intro v hne hany
    rw [← any_special_split] at hany
    simp [displayArg, hne, hany]

/-- Witness for C9: a string with a space is wrapped in double quotes and a
plain string is unchanged. -/
theorem display_arg_quoting_witness :
    displayArg "a b" = "\"" ++ "a b" ++ "\"" ∧ displayArg "plain" = "plain" :=
  ⟨display_arg_quoting.2.1 "a b" (by decide) (by decide),
   display_arg_quoting.2.2.1 "plain" (by decide) (by decide)⟩

/-- One form event preserves the mutual exclusions: the clearing done by each
`toggled` handler restores the invariant whatever field it sets. -/
theorem applyEv_exclInv (e : Ev) (s : FormState) (h : exclInv s) :
    exclInv (applyEv e s) := by
  obtain ⟨h1, h2, h3, h4⟩ := h
  cases e with
  | setResume b => cases b <;> simp_all [applyEv, exclInv]
  | setRetryFailed b => cases b <;> simp_all [applyEv, exclInv]
  | setTest b => cases b <;> simp_all [applyEv, exclInv]
  | setVideosOnly b => cases b <;> simp_all [applyEv, exclInv]
  | setPicturesOnly b => cases b <;> simp_all [applyEv, exclInv]
  | setMergeOverlays b => simp_all [applyEv, exclInv]
  | setDeferVideoOverlays b => simp_all [applyEv, exclInv]
  | setOverlaysOnly b => simp_all [applyEv, exclInv]
  | setTimestampFilenames b => simp_all [applyEv, exclInv]
  | setRemoveDuplicates b => simp_all [applyEv, exclInv]
  | setJoinMultiSnaps b => simp_all [applyEv, exclInv]
  | setModeIndex i => simp_all [applyEv, exclInv]
  | setHtmlPath t => simp_all [applyEv, exclInv]
  | setOutputPath t => simp_all [applyEv, exclInv]
  | setMergeFolder t => simp_all [applyEv, exclInv]
  | setThreads n => simp_all [applyEv, exclInv]

/-- C3: any sequence of form events applied to a state satisfying the
exclusions keeps at most one of resume, retry-failed, test checked and at most
one of videos-only, pictures-only checked; moreover enabling any one of
resume, retry-failed or test clears the other two, and enabling videos-only
clears pictures-only and vice versa, from any state. -/
theorem toggle_exclusion_invariant :
    (∀ (s : FormState) (evs : List Ev), exclInv s → exclInv (applyEvs evs s)) ∧
    (∀ s : FormState,
      (applyEv (Ev.setResume true) s).retryFailed = false ∧
      (applyEv (Ev.setResume true) s).test = false) ∧
    (∀ s : FormState,
      (applyEv (Ev.setRetryFailed true) s).resume = false ∧
      (applyEv (Ev.setRetryFailed true) s).test = false) ∧
    (∀ s : FormState,
      (applyEv (Ev.setTest true) s).resume = false ∧
      (applyEv (Ev.setTest true) s).retryFailed = false) ∧
    (∀ s : FormState, (applyEv (Ev.setVideosOnly true) s).picturesOnly = false) ∧
    (∀ s : FormState, (applyEv (Ev.setPicturesOnly true) s).videosOnly = false) := by
  refine ⟨?_, fun s => by simp [applyEv], fun s => by simp [applyEv],
    fun s => by simp [applyEv], fun s => by simp [applyEv], fun s => by simp [applyEv]⟩
  intro s evs h
  induction evs generalizing s with
  | nil => exact h
  | cons e rest ih => exact ih (applyEv e s) (applyEv_exclInv e s h)

/-- Witness for C3: toggling resume on, then retry-failed on, then videos-only
on from the cleared initial form keeps the exclusions. -/
theorem toggle_exclusion_invariant_witness :
    exclInv (applyEvs
      [Ev.setResume true, Ev.setRetryFailed true, Ev.setVideosOnly true] baseForm) :=
  toggle_exclusion_invariant.1 baseForm
    [Ev.setResume true, Ev.setRetryFailed true, Ev.setVideosOnly true] (by decide)

/-- C6: whenever a start precondition fails — missing script; in download mode
an empty or nonexistent stripped HTML path; in merge mode an empty stripped
folder or one that is not a directory; or an already-running process — the
start shows a modal message, spawns nothing, and leaves the process handle
exactly as it was; each failing precondition produces its modal. -/
theorem start_preconditions_block :
    (∀ (env : Env) (s : FormState) (proc : Option ProcState),
        ((startProcessRun env s proc).modal).isSome = true →
        (startProcessRun env s proc).spawnedArgs = none ∧
        (startProcessRun env s proc).procAfter = proc) ∧
    (∀ (env : Env) (s : FormState) (proc : Option ProcState),
        env.scriptExists = false →
        (startProcessRun env s proc).modal = some "Missing script") ∧
    (∀ (env : Env) (s : FormState) (proc : Option ProcState),
        env.scriptExists = true → s.modeIndex = 0 → pyStrip s.htmlPath = "" →
        (startProcessRun env s proc).modal = some "Missing HTML") ∧
    (∀ (env : Env) (s : FormState) (proc : Option ProcState),
        env.scriptExists = true → s.modeIndex = 0 → pyStrip s.htmlPath ≠ "" →
        env.pathExists (pyStrip s.htmlPath) = false →
        (startProcessRun env s proc).modal = some "Missing file") ∧
    (∀ (env : Env) (s : FormState) (proc : Option ProcState),
        env.scriptExists = true → s.modeIndex ≠ 0 → pyStrip s.mergeFolder = "" →
        (startProcessRun env s proc).modal = some "Missing folder") ∧
    (∀ (env : Env) (s : FormState) (proc : Option ProcState),
        env.scriptExists = true → s.modeIndex ≠ 0 → pyStrip s.mergeFolder ≠ "" →
        env.isDir (pyStrip s.mergeFolder) = false →
        (startProcessRun env s proc).modal = some "Invalid folder") ∧
    (∀ (env : Env) (s : FormState) (proc : Option ProcState),
        processIsRunning proc = true →
        ((startProcessRun env s proc).modal).isSome = true ∧
        (startProcessRun env s proc).procAfter = proc) := by
  refine ⟨?_, ?_, ?_, ?_, ?_, ?_, ?_⟩
  · intro env s proc h
    unfold startProcessRun at *
    split_ifs at * <;> simp_all
  · intro env s proc h
    simp [startProcessRun, h]
  · intro env s proc h1 h2 h3
    simp [startProcessRun, h1, h2, h3]
  · intro env s proc h1 h2 h3 h4
    simp [startProcessRun, h1, h2, h3, h4]
  · intro env s proc h1 h2 h3
    simp [startProcessRun, h1, h2, h3]
  · intro env s proc h1 h2 h3 h4
    simp [startProcessRun, h1, h2, h3, h4]
  · intro env s proc h
    unfold startProcessRun
    split_ifs <;> simp_all

/-- An environment with no script file present. -/
def envNoScript : Env :=
  { scriptExists := false, scriptPath := "download_memories.py",
    pathExists := fun _ => false, isDir := fun _ => false }

/-- An environment with the script present and exactly the example HTML file
existing on disk. -/
def envHtmlOnly : Env :=
  { scriptExists := true, scriptPath := "download_memories.py",
    pathExists := fun p => p == "mem.html", isDir := fun _ => false }

/-- Witness for C6: with the script missing, the start is blocked by the
missing-script modal, nothing is spawned, and a live process handle survives
untouched. -/
theorem start_preconditions_block_witness :
    (startProcessRun envNoScript baseForm (some ProcState.running)).modal =
      some "Missing script" ∧
    (startProcessRun envNoScript baseForm (some ProcState.running)).spawnedArgs = none ∧
    (startProcessRun envNoScript baseForm (some ProcState.running)).procAfter =
      some ProcState.running :=
  ⟨start_preconditions_block.2.1 envNoScript baseForm (some ProcState.running) rfl,
   (start_preconditions_block.1 envNoScript baseForm (some ProcState.running) rfl).1,
   (start_preconditions_block.1 envNoScript baseForm (some ProcState.running) rfl).2⟩

/-- C7: a download-mode start with resume or retry-failed set and no
metadata.json under the effective output directory logs the advisory warning
but is not blocked: the process is spawned all the same. -/
theorem resume_warning_nonblocking (env : Env) (s : FormState) (proc : Option ProcState)
    (h1 : env.scriptExists = true) (h2 : s.modeIndex = 0)
    (h3 : pyStrip s.htmlPath ≠ "") (h4 : env.pathExists (pyStrip s.htmlPath) = true)
    (h5 : (s.resume || s.retryFailed) = true)
    (h6 : env.pathExists (outputDirOf s ++ "/metadata.json") = false)
    (h7 : processIsRunning proc = false) :
    (startProcessRun env s proc).warned = true ∧
    (startProcessRun env s proc).spawnedArgs =
      some (["-u", env.scriptPath] ++ buildArgs s) ∧
    (startProcessRun env s proc).procAfter = some ProcState.running := by
  simp [startProcessRun, h1, h2, h3, h4, h5, h6, h7]

/-- Witness for C7: resume checked, mem.html present, no metadata.json under
the default "memories" output directory, no live process. -/
theorem resume_warning_nonblocking_witness :
    (startProcessRun envHtmlOnly exDownload none).warned = true ∧
    (startProcessRun envHtmlOnly exDownload none).spawnedArgs =
      some (["-u", envHtmlOnly.scriptPath] ++ buildArgs exDownload) ∧
    (startProcessRun envHtmlOnly exDownload none).procAfter = some ProcState.running :=
  resume_warning_nonblocking envHtmlOnly exDownload none rfl rfl (by decide)
    (by decide) rfl (by decide) rfl

/-- C8: stopping with no process or a not-running process does nothing; for a
live process the graceful terminate request always comes first, the wait uses
the fixed 2000 ms grace period, a forced kill is issued exactly once when the
process does not exit within the grace period, and no kill is issued when it
does. -/
theorem stop_process_grace :
    (∀ ex : Bool, stopProcess none ex = []) ∧
    (∀ ex : Bool, stopProcess (some ProcState.notRunning) ex = []) ∧
    (∀ (st : ProcState) (ex : Bool), st ≠ ProcState.notRunning →
        stopProcess (some st) ex =
          [StopAction.terminate, StopAction.waitForFinished 2000] ++
          (if ex then [] else [StopAction.kill]) ++
          [StopAction.log "Process stopped by user.\n"]) ∧
    (∀ st : ProcState, st ≠ ProcState.notRunning →
        (stopProcess (some st) false).count StopAction.kill = 1) ∧
    (∀ st : ProcState, st ≠ ProcState.notRunning →
        (stopProcess (some st) true).count StopAction.kill = 0) := by
  refine ⟨fun ex => rfl, fun ex => by simp [stopProcess], ?_, ?_, ?_⟩
  · intro st ex h
    simp [stopProcess, h]
  · intro st h
    have hs : stopProcess (some st) false =
        [StopAction.terminate, StopAction.waitForFinished 2000, StopAction.kill,
         StopAction.log "Process stopped by user.\n"] := by
      simp [stopProcess, h]
    rw [hs]
    decide
  · intro st h
    have hs : stopProcess (some st) true =
        [StopAction.terminate, StopAction.waitForFinished 2000,
         StopAction.log "Process stopped by user.\n"] := by
      simp [stopProcess, h]
    rw [hs]
    decide

/-- Witness for C8: a running process that ignores the grace period receives
terminate, the 2000 ms wait, one kill, and the log entry. -/
theorem stop_process_grace_witness :
    stopProcess (some ProcState.running) false =
      [StopAction.terminate, StopAction.waitForFinished 2000] ++
      (if false then [] else [StopAction.kill]) ++
      [StopAction.log "Process stopped by user.\n"] ∧
    (stopProcess (some ProcState.running) false).count StopAction.kill = 1 :=
  ⟨stop_process_grace.2.2.1 ProcState.running false (by decide),
   stop_process_grace.2.2.2.1 ProcState.running (by decide)⟩

end SnapGui
